import Mathlib

/-!
Verification of the TrackingTime tasks ETL script (`trackingtime_parser.py`).

The script is a one-shot ETL job: it provisions a destination table
(`create_table`), fetches task records from a web API and transforms them
into a pandas DataFrame (`make_tasks_df`), and appends the frame to the
table (`insert_to_table`); `main` runs these three steps once, in order.

The embedding below models JSON values, Python `dict` lookup (a missing key
is an error, `KeyError`), the record-transformation loop, the fetch step
(HTTP result, body parse, `data`-key extraction — the status code is never
consulted by the source), and the database as an association list of tables.
The provisioning DDL binds the table name as a SQL parameter, which
PostgreSQL rejects as malformed on every execution; the embedding carries
this deterministic failure. The clock is modelled as a single run-level
input `now` standing for the value `datetime.datetime.now().strftime` of
the run.
-/

set_option autoImplicit false

namespace TrackingTime

/-- JSON values as delivered by the API body. -/
inductive Json where
  | null
  | bool (b : Bool)
  | num (n : Int)
  | str (s : String)
  | arr (elems : List Json)
  | obj (fields : List (String × Json))

/-- First-match association lookup, as Python `dict` access (insertion order,
first binding wins; our objects carry each key once). -/
def lookupFields : List (String × Json) → String → Option Json
  | [], _ => none
  | (k, v) :: rest, key => if k = key then some v else lookupFields rest key

/-- Python subscript `value[key]`: `none` models the raised `KeyError` /
`TypeError` when the key is absent or the value is not a dict. -/
def Json.lookupJ : Json → String → Option Json
  | Json.obj fields, key => lookupFields fields key
  | _, _ => none

/-- One row of the tasks DataFrame (source lines 182-187): the six column
values; field values are copied verbatim from the record, no coercion. -/
structure Row where
  date : String
  project_name : Json
  project_time : Json
  assignee_name : Json
  task_name : Json
  task_time : Json

/-- The DataFrame column names fixed at source lines 167-172. -/
def taskDfColumns : List String :=
  ["date", "project_name", "project_time", "assignee_name", "task_name", "task_time"]

/-- A pandas DataFrame: column names plus indexed rows (pandas keeps an
explicit integer index; `reset_index` renumbers it). -/
structure DataFrame where
  columns : List String
  rows : List (Nat × Row)

/-- Errors raised inside the per-record loop: Python `KeyError` on a missing
field (the source has no dedicated error type; any such error aborts the run). -/
inductive TransformError where
  | keyError (field : String)

/-- `tasks_data[i]['project'] is None` (source line 174). -/
def isNullProject (rec : Json) : Bool :=
  match rec.lookupJ "project" with
  | some Json.null => true
  | _ => false

/-- Body of the loop for a record that is not skipped (source lines 176-187):
look the five fields up in source order; the first missing one raises. -/
def strictRow (now : String) (rec : Json) : Except TransformError Row :=
  match rec.lookupJ "project" with
  | none => Except.error (TransformError.keyError "project")
  | some project =>
    match rec.lookupJ "project_accumulated_time" with
    | none => Except.error (TransformError.keyError "project_accumulated_time")
    | some ptime =>
      match (rec.lookupJ "user").bind (fun u => u.lookupJ "name") with
      | none => Except.error (TransformError.keyError "user.name")
      | some uname =>
        match rec.lookupJ "name" with
        | none => Except.error (TransformError.keyError "name")
        | some tname =>
          match rec.lookupJ "accumulated_time" with
          | none => Except.error (TransformError.keyError "accumulated_time")
          | some ttime => Except.ok ⟨now, project, ptime, uname, tname, ttime⟩

/-- The transformation loop (source lines 173-188): skip records whose
`project` is JSON null, build one row per remaining record, abort on the
first per-record error. -/
def transformTasks (now : String) : List Json → Except TransformError (List Row)
  | [] => Except.ok []
  | rec :: rest =>
    if isNullProject rec then transformTasks now rest
    else
      match strictRow now rec with
      | Except.error e => Except.error e
      | Except.ok row =>
        match transformTasks now rest with
        | Except.error e => Except.error e
        | Except.ok rows => Except.ok (row :: rows)

/-- Row construction applied down a list with fail-fast error propagation:
the loop of `transformTasks` without its skip rule, used to state the
filtering law. -/
def mapRows (now : String) : List Json → Except TransformError (List Row)
  | [] => Except.ok []
  | rec :: rest =>
    match strictRow now rec with
    | Except.error e => Except.error e
    | Except.ok row =>
      match mapRows now rest with
      | Except.error e => Except.error e
      | Except.ok rows => Except.ok (row :: rows)

/-- `reset_index(drop=True)` (source line 190): discard the old index and
renumber the rows consecutively from 0. -/
def resetIndex (rows : List (Nat × Row)) : List (Nat × Row) :=
  (rows.map Prod.snd).enum

/-- An HTTP response as seen by the script: the status code and the result
of parsing the body as JSON (`none`: `.json()` raises, body not valid JSON). -/
structure Response where
  status : Nat
  body : Option Json

/-- The ways the fetch step fails (source lines 165-166): the `requests.get`
call itself errors, the body is not JSON, or the parsed JSON has no `data`. -/
inductive FetchError where
  | httpError
  | invalidJson
  | noDataKey

/-- The fetch step (source lines 165-166): `requests.get(...)` followed by
`response.json()['data']`. The input is `none` when the HTTP call itself
raised. The status code of the response is never consulted. -/
def fetchTasks : Option Response → Except FetchError Json
  | none => Except.error FetchError.httpError
  | some resp =>
    match resp.body with
    | none => Except.error FetchError.invalidJson
    | some j =>
      match j.lookupJ "data" with
      | none => Except.error FetchError.noDataKey
      | some d => Except.ok d

/-- All the ways `make_tasks_df` can raise: fetch errors, a `data` value
that is not a list (`len`/indexing fails), or a per-record error. -/
inductive AppError where
  | fetch (e : FetchError)
  | dataNotArray
  | transform (e : TransformError)

/-- `make_tasks_df` (source lines 143-191): fetch, extract `data`, run the
transformation loop into a DataFrame with the fixed columns, then
`reset_index(drop=True)`. Each appended single-row frame carries index 0
(source line 182) before the reset renumbers them. -/
def make_tasks_df (now : String) (httpResult : Option Response) :
    Except AppError DataFrame :=
  match fetchTasks httpResult with
  | Except.error e => Except.error (AppError.fetch e)
  | Except.ok (Json.arr tasks) =>
    match transformTasks now tasks with
    | Except.error e => Except.error (AppError.transform e)
    | Except.ok rows =>
      Except.ok ⟨taskDfColumns, resetIndex (rows.map (fun r => (0, r)))⟩
  | Except.ok _ => Except.error AppError.dataNotArray

/-- One column of a SQL table schema. -/
structure ColumnSpec where
  name : String
  sqlType : String
  notNull : Bool

/-- The schema of the DDL statement issued by `create_table`
(source lines 127-138). -/
def destSchema : List ColumnSpec :=
  [⟨"creation_date", "date", false⟩,
   ⟨"project", "varchar(64)", false⟩,
   ⟨"accumulated_time_s", "int", true⟩,
   ⟨"username", "varchar(64)", false⟩,
   ⟨"task", "varchar(128)", false⟩,
   ⟨"task_time_s", "int", true⟩]

/-- The state of one database table: its schema and its stored rows. -/
structure TableState where
  schema : List ColumnSpec
  rows : List Row

/-- The database: tables by name. -/
structure DBState where
  tables : List (String × TableState)

/-- Name-indexed table lookup. -/
def lookupAssoc : List (String × TableState) → String → Option TableState
  | [], _ => none
  | (k, v) :: rest, key => if k = key then some v else lookupAssoc rest key

/-- Look a table up in the database state. -/
def lookupTable (st : DBState) (tname : String) : Option TableState :=
  lookupAssoc st.tables tname

/-- Database-level failures: a statement rejected as malformed SQL before
execution, or a batch INSERT naming a column the destination table does not
have. -/
inductive DBError where
  | invalidSql
  | undefinedColumn

/-- The DDL statement built at source lines 127-138: the fixed column list,
with the table-name identifier position filled by the bound parameter
`:table_name` instead of being spliced into the statement text. -/
structure DdlStatement where
  identifierIsParameter : Bool
  schema : List ColumnSpec

/-- The `CREATE TABLE IF NOT EXISTS` statement of the source: its
identifier is the bound parameter `:table_name` (source line 129). -/
def tableCreationStmt : DdlStatement := ⟨true, destSchema⟩

/-- Execute a `CREATE TABLE IF NOT EXISTS` statement. PostgreSQL accepts a
bound parameter only in value positions: a parameter in the table-identifier
position is rendered as a quoted string literal and the statement is
rejected as malformed on every execution, whatever the database state.
A well-formed statement is a no-op when the table exists and creates it
with the statement's schema when it does not. -/
def execDdl (stmt : DdlStatement) (tname : String) (st : DBState) :
    Except DBError DBState :=
  if stmt.identifierIsParameter then Except.error DBError.invalidSql
  else
    match lookupTable st tname with
    | some _ => Except.ok st
    | none => Except.ok ⟨st.tables ++ [(tname, ⟨stmt.schema, []⟩)]⟩

/-- `create_table` (source lines 112-140): execute `tableCreationStmt` with
the configured table name bound to `:table_name`. Because the identifier is
a bound parameter, the statement errors on every call and the table is
never created. -/
def create_table (tname : String) (st : DBState) : Except DBError DBState :=
  execDdl tableCreationStmt tname st

/-- Column specs pandas synthesizes when `to_sql` has to create the table
itself from the frame. -/
def schemaOfDf (cols : List String) : List ColumnSpec :=
  cols.map (fun c => ⟨c, "text", false⟩)

/-- Append rows to the named table, leaving other tables unchanged. -/
def appendRows (st : DBState) (tname : String) (newRows : List Row) : DBState :=
  ⟨st.tables.map (fun p => if p.1 = tname then (p.1, ⟨p.2.schema, p.2.rows ++ newRows⟩) else p)⟩

/-- `insert_to_table` (source lines 194-219): `DataFrame.to_sql` with
`if_exists='append'` and `index=False`. When the table does not exist pandas
creates it from the frame; when it exists, an empty frame issues no INSERT
at all, and a non-empty frame INSERTs under the frame's column names, which
the database rejects if a name is not a column of the table. -/
def insert_to_table (tname : String) (df : DataFrame) (st : DBState) :
    Except DBError DBState :=
  match lookupTable st tname with
  | none =>
    Except.ok ⟨st.tables ++ [(tname, ⟨schemaOfDf df.columns, df.rows.map Prod.snd⟩)]⟩
  | some t =>
    if df.rows.isEmpty then Except.ok st
    else if df.columns.all (fun c => t.schema.any (fun col => col.name = c)) then
      Except.ok (appendRows st tname (df.rows.map Prod.snd))
    else Except.error DBError.undefinedColumn

/-- The observable steps of one cycle, for stating ordering properties of
`main`. -/
inductive Event where
  | provision
  | fetch
  | transform
  | write

/-- Program state threaded through `main`: the database plus the log of
steps executed so far. -/
structure World where
  db : DBState
  log : List Event

/-- Either kind of failure `main` can propagate. -/
inductive MainError where
  | app (e : AppError)
  | db (e : DBError)

/-- `create_table` as a step of `main`: the provisioning attempt is logged
whether or not the DDL is accepted; an error propagates, aborting the run. -/
def runCreateTable (tname : String) (w : World) : World × Except DBError Unit :=
  match create_table tname w.db with
  | Except.error e => (⟨w.db, w.log ++ [Event.provision]⟩, Except.error e)
  | Except.ok db2 => (⟨db2, w.log ++ [Event.provision]⟩, Except.ok ())

/-- The steps `make_tasks_df` executes: the HTTP GET always runs; the
transformation loop runs only once the fetch produced a list. -/
def cycleEvents (httpResult : Option Response) : List Event :=
  match fetchTasks httpResult with
  | Except.ok (Json.arr _) => [Event.fetch, Event.transform]
  | _ => [Event.fetch]

/-- `make_tasks_df` as a step of `main`: logs its steps and returns its
result; the database is untouched. -/
def runMakeTasksDf (now : String) (httpResult : Option Response) (w : World) :
    World × Except AppError DataFrame :=
  (⟨w.db, w.log ++ cycleEvents httpResult⟩, make_tasks_df now httpResult)

/-- `insert_to_table` as a step of `main`: the write is attempted (and
logged) whether or not the INSERT succeeds. -/
def runInsert (tname : String) (df : DataFrame) (w : World) :
    World × Except DBError Unit :=
  match insert_to_table tname df w.db with
  | Except.error e => (⟨w.db, w.log ++ [Event.write]⟩, Except.error e)
  | Except.ok db2 => (⟨db2, w.log ++ [Event.write]⟩, Except.ok ())

/-- `main` (source lines 222-230) after configuration resolution: attempt
provisioning, then building the DataFrame, then appending it — at most once
each, in this order, aborting at the first uncaught error, and stop (the
script has no scheduler loop; it is the one-shot variant). -/
def mainRun (now tname : String) (httpResult : Option Response) (w : World) :
    World × Except MainError Unit :=
  match runCreateTable tname w with
  | (w1, Except.error e) => (w1, Except.error (MainError.db e))
  | (w1, Except.ok _) =>
    match runMakeTasksDf now httpResult w1 with
    | (w2, Except.error e) => (w2, Except.error (MainError.app e))
    | (w2, Except.ok df) =>
      match runInsert tname df w2 with
      | (w3, Except.error e) => (w3, Except.error (MainError.db e))
      | (w3, Except.ok _) => (w3, Except.ok ())

/-! ### Concrete inputs for the scenario claims -/

/-- A raw record not yet assigned to a project (`project` is JSON null). -/
def recNull : Json :=
  Json.obj [("project", Json.null), ("name", Json.str "Orphan task"),
            ("accumulated_time", Json.num 7)]

/-- The project-attributed record of the spec scenario. -/
def recAlpha : Json :=
  Json.obj [("project", Json.str "Alpha"),
            ("project_accumulated_time", Json.num 120),
            ("user", Json.obj [("name", Json.str "Bob")]),
            ("name", Json.str "Write spec"),
            ("accumulated_time", Json.num 45)]

/-- The single row the spec scenario expects. -/
def rowAlpha : Row :=
  ⟨"2024-03-01", Json.str "Alpha", Json.num 120, Json.str "Bob",
   Json.str "Write spec", Json.num 45⟩

/-- The HTTP response of the spec scenario: status 200, body
`\x7b"data": [recNull, recAlpha]\x7d`. -/
def respScenario : Response :=
  ⟨200, some (Json.obj [("data", Json.arr [recNull, recAlpha])])⟩

/-- A project-attributed record whose `accumulated_time` field is absent. -/
def recMissing : Json :=
  Json.obj [("project", Json.str "Alpha"),
            ("project_accumulated_time", Json.num 120),
            ("user", Json.obj [("name", Json.str "Bob")]),
            ("name", Json.str "Write spec")]

/-- A project-attributed record whose two time fields hold strings that
cannot be coerced to integers. -/
def recStrTime : Json :=
  Json.obj [("project", Json.str "Alpha"),
            ("project_accumulated_time", Json.str "not a number"),
            ("user", Json.obj [("name", Json.str "Bob")]),
            ("name", Json.str "Write spec"),
            ("accumulated_time", Json.str "NaN")]

/-! ### Transformer lemmas -/

/-- The loop equals: drop the JSON-null-project records, then build one row
per remaining record. -/
theorem transformTasks_eq_mapRows (now : String) (tasks : List Json) :
    transformTasks now tasks =
      mapRows now (tasks.filter (fun rec => !(isNullProject rec))) := by
  induction tasks with
  | nil => rfl
  | cons rec rest ih =>
    cases h : isNullProject rec with
    | true => simp [transformTasks, h, List.filter_cons, ih]
    | false => simp [transformTasks, mapRows, h, List.filter_cons, ih]

/-- A successful `mapRows` yields one row per input record. -/
theorem mapRows_length (now : String) (l : List Json) (out : List Row)
    (h : mapRows now l = Except.ok out) : out.length = l.length := by
  induction l generalizing out with
  | nil => cases h; rfl
  | cons rec rest ih =>
    unfold mapRows at h
    cases hs : strictRow now rec with
    | error e => rw [hs] at h; cases h
    | ok row =>
      rw [hs] at h
      cases hr : mapRows now rest with
      | error e => rw [hr] at h; cases h
      | ok rows =>
        rw [hr] at h
        cases h
        simp [ih rows hr]

/-- A successfully built row carries the supplied `now` as its date. -/
theorem strictRow_date (now : String) (rec : Json) (row : Row)
    (h : strictRow now rec = Except.ok row) : row.date = now := by
  unfold strictRow at h
  repeat' split at h
  all_goals (cases h; try rfl)

/-- Every row of a successful `mapRows` carries the supplied `now`. -/
theorem mapRows_date (now : String) (l : List Json) (out : List Row)
    (h : mapRows now l = Except.ok out) : ∀ row ∈ out, row.date = now := by
  induction l generalizing out with
  | nil => cases h; intro row hrow; cases hrow
  | cons rec rest ih =>
    unfold mapRows at h
    cases hs : strictRow now rec with
    | error e => rw [hs] at h; cases h
    | ok row0 =>
      rw [hs] at h
      cases hr : mapRows now rest with
      | error e => rw [hr] at h; cases h
      | ok rows =>
        rw [hr] at h
        cases h
        intro row hrow
        rcases List.mem_cons.mp hrow with heq | hmem
        · rw [heq]; exact strictRow_date now rec row0 hs
        · exact ih rows hr row hmem

/-! ### Claims -/

/-- Claim C1: For every raw record in the fetched list whose `project` field is
JSON null, the transformation loop produces no output row, and null-project
records are the sole records removed: the loop equals row construction over
exactly the records whose `project` is not null. -/
theorem c1_null_project_sole_filter (now : String) (tasks : List Json) :
    transformTasks now tasks =
      mapRows now (tasks.filter (fun rec => !(isNullProject rec))) :=
  transformTasks_eq_mapRows now tasks

/-- Claim C2: When the transformation loop succeeds, it produces exactly one row
per record with non-null `project`, and every produced row's date is the
single `now` value of the run, whatever the record's own fields hold. -/
theorem c2_one_row_stamped_now (now : String) (tasks : List Json) (out : List Row)
    (h : transformTasks now tasks = Except.ok out) :
    out.length = (tasks.filter (fun rec => !(isNullProject rec))).length ∧
    ∀ row ∈ out, row.date = now := by
  rw [transformTasks_eq_mapRows] at h
  exact ⟨mapRows_length now _ out h, mapRows_date now _ out h⟩

/-- Witness for C2 at the spec scenario input. -/
theorem c2_one_row_stamped_now_witness :
    transformTasks "2024-03-01" [recNull, recAlpha] = Except.ok [rowAlpha] ∧
    ([rowAlpha].length =
        ([recNull, recAlpha].filter (fun rec => !(isNullProject rec))).length ∧
      ∀ row ∈ [rowAlpha], row.date = "2024-03-01") :=
  ⟨rfl, c2_one_row_stamped_now "2024-03-01" [recNull, recAlpha] [rowAlpha] rfl⟩

/-- Claim C3: On the raw list `[recNull, recAlpha]` with now-date 2024-03-01,
`make_tasks_df` yields exactly one row, index 0, with the scenario's six
field values, the two time fields being JSON integers 120 and 45. -/
theorem c3_scenario :
    make_tasks_df "2024-03-01" (some respScenario) =
      Except.ok ⟨taskDfColumns, [(0, rowAlpha)]⟩ := rfl

/-- Claim C10: A successful `make_tasks_df` preserves order: its rows are indexed
consecutively from 0, and the row values are the fail-fast row construction
over the surviving records in their input order (the i-th row comes from the
i-th record with non-null `project`). -/
theorem c10_order_preserving (now : String) (httpResult : Option Response)
    (df : DataFrame) (h : make_tasks_df now httpResult = Except.ok df) :
    df.rows.map Prod.fst = List.range df.rows.length ∧
    ∃ tasks, fetchTasks httpResult = Except.ok (Json.arr tasks) ∧
      mapRows now (tasks.filter (fun rec => !(isNullProject rec))) =
        Except.ok (df.rows.map Prod.snd) := by
  cases hf : fetchTasks httpResult with
  | error e => simp [make_tasks_df, hf] at h
  | ok d =>
    cases d
    case arr tasks =>
      cases ht : transformTasks now tasks with
      | error e => simp [make_tasks_df, hf, ht] at h
      | ok rows =>
        simp only [make_tasks_df, hf, ht] at h
        cases h
        refine ⟨?_, tasks, rfl, ?_⟩
        · simp [resetIndex, List.map_map]
        · rw [← transformTasks_eq_mapRows]
          simp [resetIndex, List.map_map, ht]
    all_goals simp [make_tasks_df, hf] at h

/-- Witness for C10 at the spec scenario input. -/
theorem c10_order_preserving_witness :
    make_tasks_df "2024-03-01" (some respScenario) =
      Except.ok ⟨taskDfColumns, [(0, rowAlpha)]⟩ ∧
    ((⟨taskDfColumns, [(0, rowAlpha)]⟩ : DataFrame).rows.map Prod.fst =
        List.range (⟨taskDfColumns, [(0, rowAlpha)]⟩ : DataFrame).rows.length ∧
      ∃ tasks, fetchTasks (some respScenario) = Except.ok (Json.arr tasks) ∧
        mapRows "2024-03-01" (tasks.filter (fun rec => !(isNullProject rec))) =
          Except.ok ((⟨taskDfColumns, [(0, rowAlpha)]⟩ : DataFrame).rows.map Prod.snd)) :=
  ⟨rfl, c10_order_preserving "2024-03-01" (some respScenario) ⟨taskDfColumns, [(0, rowAlpha)]⟩ rfl⟩

/-! ### Provisioner, writer, fetcher and main claims -/

/-- Claim C5 (falsified): provisioning never succeeds, let alone twice: the
table name is bound as a SQL parameter inside the DDL, PostgreSQL rejects
the rendered statement on every call, and no table is ever created — the
database state that would hold the schema is untouched. -/
theorem c5_provision_always_errors (tname : String) (st : DBState) :
    create_table tname st = Except.error DBError.invalidSql := rfl

/-- Claim C4 (falsified): the column names the writer inserts under are the
DataFrame columns, which are not the DDL's column names; and because the
provisioner never creates its table, a writer call that is reached finds no
table and has pandas auto-create one from the frame — at the scenario row
the append succeeds and stores the row under the frame's columns, not under
the destination schema the claim requires. -/
theorem c4_written_columns_mismatch :
    taskDfColumns ≠ destSchema.map ColumnSpec.name ∧
    insert_to_table "tasks" ⟨taskDfColumns, [(0, rowAlpha)]⟩ ⟨[]⟩ =
      Except.ok ⟨[("tasks", ⟨schemaOfDf taskDfColumns, [rowAlpha]⟩)]⟩ ∧
    (schemaOfDf taskDfColumns).map ColumnSpec.name ≠ destSchema.map ColumnSpec.name :=
  ⟨by decide, rfl, by decide⟩

/-- A non-2xx response whose body is valid JSON with a `data` key. -/
def respNon2xx : Response := ⟨500, some (Json.obj [("data", Json.arr [])])⟩

/-- Claim C6 counterexample: the response status is non-2xx, yet the fetch
step succeeds — the source never checks the status code, so "fails ...
exactly when ... the response status is non-2xx ..." is false. -/
theorem c6_counterexample :
    ¬(200 ≤ respNon2xx.status ∧ respNon2xx.status ≤ 299) ∧
    fetchTasks (some respNon2xx) = Except.ok (Json.arr []) :=
  ⟨by decide, rfl⟩

/-- Claim C6 as amended: the fetch step fails exactly when the HTTP call
errors, the body is not valid JSON, or the parsed JSON lacks a `data` key —
and the response status is never consulted (replacing it leaves the result
unchanged). -/
theorem c6_failure_condition (r : Option Response) (resp : Response) (s : Nat) :
    ((∃ e, fetchTasks r = Except.error e) ↔
      (r = none ∨ ∃ resp2, r = some resp2 ∧
        (resp2.body = none ∨ ∃ j, resp2.body = some j ∧ j.lookupJ "data" = none))) ∧
    fetchTasks (some ⟨s, resp.body⟩) = fetchTasks (some resp) := by
  constructor
  · cases r with
    | none => simp [fetchTasks]
    | some resp2 =>
      cases hb : resp2.body with
      | none => simp [fetchTasks, hb]
      | some j =>
        cases hl : j.lookupJ "data" with
        | none => simp [fetchTasks, hb, hl]
        | some d => simp [fetchTasks, hb, hl]
  · cases resp with
    | mk st b => cases b <;> rfl

/-- Claim C7 counterexample: a record whose two time fields are strings that
cannot be coerced to integers is transformed without any error — the source
performs no integer coercion, it copies the values verbatim. -/
theorem c7_counterexample :
    transformTasks "2024-03-01" [recStrTime] =
      Except.ok [⟨"2024-03-01", Json.str "Alpha", Json.str "not a number",
                  Json.str "Bob", Json.str "Write spec", Json.str "NaN"⟩] := rfl

/-- A record missing one of the required fields makes the row construction
fail. -/
theorem strictRow_missing_field (now : String) (rec : Json)
    (hmiss : rec.lookupJ "accumulated_time" = none ∨ rec.lookupJ "name" = none ∨
      (rec.lookupJ "user").bind (fun u => u.lookupJ "name") = none) :
    ∃ e, strictRow now rec = Except.error e := by
  cases hp : rec.lookupJ "project" with
  | none => exact ⟨TransformError.keyError "project", by simp [strictRow, hp]⟩
  | some p =>
    cases hpt : rec.lookupJ "project_accumulated_time" with
    | none =>
      exact ⟨TransformError.keyError "project_accumulated_time",
        by simp [strictRow, hp, hpt]⟩
    | some pt =>
      cases hun : (rec.lookupJ "user").bind (fun u => u.lookupJ "name") with
      | none =>
        exact ⟨TransformError.keyError "user.name", by simp [strictRow, hp, hpt, hun]⟩
      | some un =>
        cases hn : rec.lookupJ "name" with
        | none =>
          exact ⟨TransformError.keyError "name", by simp [strictRow, hp, hpt, hun, hn]⟩
        | some n =>
          cases hat : rec.lookupJ "accumulated_time" with
          | none =>
            exact ⟨TransformError.keyError "accumulated_time",
              by simp [strictRow, hp, hpt, hun, hn, hat]⟩
          | some tval => rcases hmiss with h | h | h <;> simp_all

/-- A non-skipped record on which the row construction fails aborts the
whole loop with an error. -/
theorem transformTasks_aborts (now : String) (tasks : List Json) (rec : Json)
    (hmem : rec ∈ tasks) (hkeep : isNullProject rec = false)
    (herr : ∃ e, strictRow now rec = Except.error e) :
    ∃ e, transformTasks now tasks = Except.error e := by
  induction tasks with
  | nil => cases hmem
  | cons hd rest ih =>
    rcases List.mem_cons.mp hmem with heq | hmem2
    · subst heq
      obtain ⟨e, he⟩ := herr
      exact ⟨e, by simp [transformTasks, hkeep, he]⟩
    · cases hh : isNullProject hd with
      | true =>
        obtain ⟨e, he⟩ := ih hmem2
        exact ⟨e, by simp [transformTasks, hh, he]⟩
      | false =>
        cases hs : strictRow now hd with
        | error e => exact ⟨e, by simp [transformTasks, hh, hs]⟩
        | ok row =>
          obtain ⟨e, he⟩ := ih hmem2
          exact ⟨e, by simp [transformTasks, hh, hs, he]⟩

/-- Claim C7 as amended: a raw record with non-null `project` that is
missing `accumulated_time`, `name`, or `user.name` makes the transformation
loop fail (an uncaught `KeyError` aborting the run before anything is
written); no integer coercion takes place, so an uncoercible time value
alone causes no error (see the counterexample). -/
theorem c7_missing_field_aborts (now : String) (tasks : List Json) (rec : Json)
    (hmem : rec ∈ tasks) (hkeep : isNullProject rec = false)
    (hmiss : rec.lookupJ "accumulated_time" = none ∨ rec.lookupJ "name" = none ∨
      (rec.lookupJ "user").bind (fun u => u.lookupJ "name") = none) :
    ∃ e, transformTasks now tasks = Except.error e :=
  transformTasks_aborts now tasks rec hmem hkeep (strictRow_missing_field now rec hmiss)

/-- Witness for the amended C7 at a record missing `accumulated_time`. -/
theorem c7_missing_field_aborts_witness :
    recMissing ∈ [recMissing] ∧ isNullProject recMissing = false ∧
    (Json.lookupJ recMissing "accumulated_time" = none ∨
      Json.lookupJ recMissing "name" = none ∨
      (Json.lookupJ recMissing "user").bind (fun u => u.lookupJ "name") = none) ∧
    ∃ e, transformTasks "2024-03-01" [recMissing] = Except.error e :=
  ⟨List.mem_singleton.mpr rfl, rfl, Or.inl rfl,
   c7_missing_field_aborts "2024-03-01" [recMissing] recMissing
     (List.mem_singleton.mpr rfl) rfl (Or.inl rfl)⟩

/-- Claim C8: a writer call with an empty row sequence on an existing
destination table inserts nothing, returns the database state unchanged,
and does not error. -/
theorem c8_empty_write_noop (tname : String) (df : DataFrame) (st : DBState)
    (t : TableState) (hempty : df.rows = [])
    (hexists : lookupTable st tname = some t) :
    insert_to_table tname df st = Except.ok st := by
  simp [insert_to_table, hexists, hempty]

/-- A database holding just the provisioned destination table. -/
def stOneTable : DBState := ⟨[("tasks", ⟨destSchema, []⟩)]⟩

/-- Witness for C8: the empty DataFrame against the provisioned table. -/
theorem c8_empty_write_noop_witness :
    (⟨taskDfColumns, []⟩ : DataFrame).rows = [] ∧
    lookupTable stOneTable "tasks" = some ⟨destSchema, []⟩ ∧
    insert_to_table "tasks" ⟨taskDfColumns, []⟩ stOneTable = Except.ok stOneTable :=
  ⟨rfl, rfl,
   c8_empty_write_noop "tasks" ⟨taskDfColumns, []⟩ stOneTable ⟨destSchema, []⟩ rfl rfl⟩

/-- Claim C9 (falsified): `main` never completes a cycle: the provisioning
step runs first and its DDL is rejected on every call, so on every input
the run aborts with only the provision event logged — the fetch, the
transformation and the write are never reached, and the database is left
untouched. -/
theorem c9_main_dies_in_provisioning (now tname : String)
    (httpResult : Option Response) (w : World) :
    (mainRun now tname httpResult w).2 =
      Except.error (MainError.db DBError.invalidSql) ∧
    (mainRun now tname httpResult w).1.log = w.log ++ [Event.provision] ∧
    (mainRun now tname httpResult w).1.db = w.db :=
  ⟨rfl, rfl, rfl⟩

end TrackingTime
